import Mathlib

/-!
Verification development for the multi-agent healthcare RAG workflow.

The definitions below are a shallow embedding of the Python source:
* `clean_content` embeds the content normalizer `clean_content` from
  `src/agentic_rag/app.py` (lines 238-294), over a model `PyVal` of the
  Python values it is applied to.  Python exceptions are modelled with
  `Except String`.
* `literal_eval` models the standard-library call `ast.literal_eval` on a
  sound subset (None, booleans, canonical integers and floats, quoted
  strings without escapes, lists, tuples, dicts with string keys): every
  decode the model performs agrees with Python, and literals it cannot
  decode are never used to certify program behavior.
* `execute_multi_agent_workflow` embeds the workflow orchestrator of the same
  name from `src/agentic_rag/agents/coordinator_agent.py` (lines 117-405),
  parameterized by an environment describing the outcome of each remote
  stage interaction.
* `create_research_agent` embeds the provisioning function of the same name
  from `src/agentic_rag/agents/research_agent.py` (lines 22-107), with the
  remote service modelled as a supply of fresh agent identifiers.
-/

/-- Model of the Python values the normalizer is applied to: `None`,
booleans, integers, floats, strings, lists, tuples, and dicts with string
keys.  A float is carried symbolically as its canonical literal text: the
normalizer never computes with numbers, it only tests their type and
renders them, and for canonical literals (shortest-repr form, which is all
the modelled decoder produces) the text is exactly Python's rendering. -/
inductive PyVal where
  | none : PyVal
  | bool : Bool → PyVal
  | int : Int → PyVal
  | float : String → PyVal
  | str : String → PyVal
  | list : List PyVal → PyVal
  | tuple : List PyVal → PyVal
  | dict : List (String × PyVal) → PyVal

/-- Characters of a string as Python `repr` shows them: backslashes and
tabs are escaped, and the delimiting single quote is escaped when
`escapeQuote` is set.  (Other control characters are not modelled; strings
produced by the modelled decoder cannot contain them escaped anyway.) -/
def pyEscapeChars (escapeQuote : Bool) : List Char → List Char
  | [] => []
  | c :: cs =>
    let rest := pyEscapeChars escapeQuote cs
    if c = '\x5c' then '\x5c' :: '\x5c' :: rest
    else if c = '\t' then '\x5c' :: 't' :: rest
    else if escapeQuote ∧ c = '\x27' then '\x5c' :: '\x27' :: rest
    else c :: rest

/-- Python `repr` of a string: single-quoted by default; double-quoted when
the string contains a single quote but no double quote; single-quoted with
the single quotes escaped when it contains both. -/
def pyReprStr (s : String) : String :=
  if s.data.contains '\x27' && !(s.data.contains '\x22') then
    "\x22" ++ String.mk (pyEscapeChars false s.data) ++ "\x22"
  else
    "\x27" ++ String.mk (pyEscapeChars (s.data.contains '\x27') s.data) ++ "\x27"

/-- Python `repr`, as used by `str` on containers.  A one-element tuple is
rendered with the trailing comma, as in Python. -/
def pyRepr : PyVal → String
  | .none => "None"
  | .bool b => if b then "True" else "False"
  | .int n => toString n
  | .float t => t
  | .str s => pyReprStr s
  | .list l => "[" ++ String.intercalate ", " (pyReprList l) ++ "]"
  | .tuple [v] => "(" ++ pyRepr v ++ ",)"
  | .tuple l => "(" ++ String.intercalate ", " (pyReprList l) ++ ")"
  | .dict d => "\x7b" ++ String.intercalate ", " (pyReprDict d) ++ "\x7d"
where
  pyReprList : List PyVal → List String
    | [] => []
    | v :: vs => pyRepr v :: pyReprList vs
  pyReprDict : List (String × PyVal) → List String
    | [] => []
    | (k, v) :: kvs => (pyReprStr k ++ ": " ++ pyRepr v) :: pyReprDict kvs

/-- Python `str()` on our value model. -/
def pyStr : PyVal → String
  | .str s => s
  | v => pyRepr v

/-- Python dict lookup `d[k]` / membership `k in d` (keys are unique in
dicts produced by Python, so first-match lookup is faithful). -/
def dget (d : List (String × PyVal)) (k : String) : Option PyVal :=
  match d.find? (fun kv => kv.1 == k) with
  | some kv => some kv.2
  | Option.none => Option.none

/-- Whether `v[:100]` succeeds in Python (slicing is supported by strings,
lists and tuples, and raises `TypeError` otherwise). -/
def sliceOk : PyVal → Bool
  | .str _ => true
  | .list _ => true
  | .tuple _ => true
  | _ => false

/-- Python dict construction from a list of key/value pairs: insertion
order, later duplicate keys overwrite the earlier value in place. -/
def dictOfPairs (ps : List (String × PyVal)) : List (String × PyVal) :=
  ps.foldl
    (fun m kv =>
      if m.any (fun e => e.1 == kv.1) then
        m.map (fun e => if e.1 == kv.1 then (e.1, kv.2) else e)
      else m ++ [kv])
    []

/-- Skip blanks, as `ast.literal_eval` ignores surrounding whitespace. -/
def skipWs : List Char → List Char
  | c :: cs =>
    if c = ' ' ∨ c = '\t' ∨ c = '\n' ∨ c = '\r' then skipWs cs else c :: cs
  | [] => []

/-- Scan a quoted string up to the closing quote `q`.  A backslash or a raw
line break makes the scan fail: Python escape-sequence semantics is not
modelled, and a raw newline in a single-line string literal is a Python
syntax error, so such literals must fall to the decode-failure path rather
than be decoded differently from Python. -/
def scanStr (q : Char) : List Char → Option (String × List Char)
  | [] => Option.none
  | c :: cs =>
    if c = q then some ("", cs)
    else if c = '\x5c' ∨ c = '\n' ∨ c = '\r' then Option.none
    else
      match scanStr q cs with
      | some (s, rest) => some (String.mk (c :: s.data), rest)
      | Option.none => Option.none

/-- Scan a maximal run of decimal digits. -/
def scanDigits : List Char → List Char × List Char
  | c :: cs =>
    if c.isDigit then
      let (ds, r) := scanDigits cs
      (c :: ds, r)
    else ([], c :: cs)
  | [] => ([], [])

/-- Decimal value of a digit run. -/
def digitsToNat (ds : List Char) : Nat :=
  ds.foldl (fun n c => n * 10 + (c.toNat - 48)) 0

/-- Whether a digit run is a legal Python decimal integer literal: a run
of zeros, or a run with no leading zero (Python accepts `00` but rejects
`007`). -/
def intTextOk : List Char → Bool
  | [] => false
  | '0' :: rest => rest.all (fun c => c = '0')
  | _ => true

/-- Whether the integer part of a float literal keeps it in canonical
(shortest-repr) form: a lone zero or no leading zero, so the literal text
is exactly Python's rendering of the decoded float. -/
def floatIntPartOk : List Char → Bool
  | [] => false
  | ['0'] => true
  | '0' :: _ => false
  | _ => true

/-- Whether a fractional digit run keeps the float literal in canonical
(shortest-repr) form: a lone zero or no trailing zero, so the literal text
is exactly Python's rendering of the decoded float. -/
def fracTextOk (fs : List Char) : Bool :=
  if fs.isEmpty then false
  else if fs == ['0'] then true
  else fs.getLast? != some '0'

/-- Scan an unsigned number literal: a canonical decimal integer, or a
canonical float of the form `digits.digits`.  Exponents, leading dots,
trailing dots and non-canonical numerals are not modelled and fall to the
decode-failure path (they are never decoded differently from Python). -/
def scanNumber (cs : List Char) : Option (PyVal × List Char) :=
  match scanDigits cs with
  | ([], _) => Option.none
  | (ds, r) =>
    match r with
    | '.' :: r2 =>
      match scanDigits r2 with
      | ([], _) => Option.none
      | (fs, r3) =>
        if floatIntPartOk ds && fracTextOk fs then
          some (.float (String.mk (ds ++ '.' :: fs)), r3)
        else Option.none
    | _ =>
      if intTextOk ds then some (.int (digitsToNat ds), r) else Option.none

mutual

/-- Recursive-descent parser for the Python literal subset handled by our
model of `ast.literal_eval`.  The fuel argument only bounds recursion
depth; it is chosen large enough at the top level. -/
def parseVal : Nat → List Char → Option (PyVal × List Char)
  | 0, _ => Option.none
  | fuel + 1, cs =>
    match skipWs cs with
    | '\x5b' :: rest => parseListTail fuel rest []
    | '\x7b' :: rest => parseDictTail fuel rest []
    | '\x27' :: rest =>
      match scanStr '\x27' rest with
      | some (s, r) => some (.str s, r)
      | Option.none => Option.none
    | '\x22' :: rest =>
      match scanStr '\x22' rest with
      | some (s, r) => some (.str s, r)
      | Option.none => Option.none
    | '(' :: rest => parseParenTail fuel rest
    | 'N' :: 'o' :: 'n' :: 'e' :: rest => some (.none, rest)
    | 'T' :: 'r' :: 'u' :: 'e' :: rest => some (.bool true, rest)
    | 'F' :: 'a' :: 'l' :: 's' :: 'e' :: rest => some (.bool false, rest)
    | '-' :: rest =>
      match scanNumber rest with
      | some (.int n, r) => some (.int (-n), r)
      | some (.float t, r) => some (.float ("-" ++ t), r)
      | _ => Option.none
    | c :: rest =>
      if c.isDigit then scanNumber (c :: rest)
      else Option.none
    | [] => Option.none

/-- Parse the elements of a list literal after the opening bracket. -/
def parseListTail : Nat → List Char → List PyVal → Option (PyVal × List Char)
  | 0, _, _ => Option.none
  | fuel + 1, cs, acc =>
    match skipWs cs with
    | '\x5d' :: rest => some (.list acc.reverse, rest)
    | cs' =>
      match parseVal fuel cs' with
      | Option.none => Option.none
      | some (v, r) =>
        match skipWs r with
        | ',' :: r2 => parseListTail fuel r2 (v :: acc)
        | '\x5d' :: r2 => some (.list (v :: acc).reverse, r2)
        | _ => Option.none

/-- Parse what follows an opening parenthesis: `()` is the empty tuple, a
single parenthesized value is the value itself (Python's `(1)` is the int
1, not a tuple), and a comma continues a tuple. -/
def parseParenTail : Nat → List Char → Option (PyVal × List Char)
  | 0, _ => Option.none
  | fuel + 1, cs =>
    match skipWs cs with
    | ')' :: r => some (.tuple [], r)
    | cs' =>
      match parseVal fuel cs' with
      | Option.none => Option.none
      | some (v, r) =>
        match skipWs r with
        | ')' :: r2 => some (v, r2)
        | ',' :: r2 => parseTupleTail fuel r2 [v]
        | _ => Option.none

/-- Parse the remaining elements of a tuple literal after the first comma
(trailing commas allowed, as in Python). -/
def parseTupleTail : Nat → List Char → List PyVal → Option (PyVal × List Char)
  | 0, _, _ => Option.none
  | fuel + 1, cs, acc =>
    match skipWs cs with
    | ')' :: r => some (.tuple acc.reverse, r)
    | cs' =>
      match parseVal fuel cs' with
      | Option.none => Option.none
      | some (v, r) =>
        match skipWs r with
        | ',' :: r2 => parseTupleTail fuel r2 (v :: acc)
        | ')' :: r2 => some (.tuple (v :: acc).reverse, r2)
        | _ => Option.none

/-- Parse the entries of a dict literal after the opening brace; keys must
be quoted strings. -/
def parseDictTail : Nat → List Char → List (String × PyVal) →
    Option (PyVal × List Char)
  | 0, _, _ => Option.none
  | fuel + 1, cs, acc =>
    match skipWs cs with
    | '\x7d' :: rest => some (.dict (dictOfPairs acc.reverse), rest)
    | q :: rest =>
      if q = '\x27' ∨ q = '\x22' then
        match scanStr q rest with
        | Option.none => Option.none
        | some (k, r) =>
          match skipWs r with
          | ':' :: r2 =>
            match parseVal fuel r2 with
            | Option.none => Option.none
            | some (v, r3) =>
              match skipWs r3 with
              | ',' :: r4 => parseDictTail fuel r4 ((k, v) :: acc)
              | '\x7d' :: r4 => some (.dict (dictOfPairs ((k, v) :: acc).reverse), r4)
              | _ => Option.none
          | _ => Option.none
      else Option.none
    | [] => Option.none

end

/-- Model of `ast.literal_eval`: parse the whole string as one literal.
The modelled subset is None, booleans, canonical decimal integers and
floats, quoted strings without escape sequences, lists, tuples,
parenthesized values, and dicts with string keys.  The model is sound but
deliberately incomplete: every string it decodes, Python decodes to the
same value, while literals outside the subset (escape sequences, sets,
complex numbers, bytes, exponent or non-canonical numerals, underscored
digits, adjacent string concatenation, non-string dict keys) are treated
as decode failures here even though Python may accept them.  Theorems that
certify behavior of the string-decoding path therefore only ever rely on
the model's successful decodes (see `cleanSafe` and the C9 theorem), never
on its failures. -/
def literal_eval (s : String) : Option PyVal :=
  match parseVal (4 * s.length + 8) s.data with
  | some (v, rest) => if (skipWs rest).isEmpty then some v else Option.none
  | Option.none => Option.none

/-- Extraction attempted by `clean_content` for one item of a list of parts
(`src/agentic_rag/app.py` lines 257-271).  The nested `text.value` branch
first performs the debug print `item['text']['value'][:100]`, which raises
`TypeError` when the value does not support slicing; this is modelled by the
error case.  `Option.none` means no fragment is appended for the item. -/
def extractPartElse (d : List (String × PyVal)) : Except String (Option PyVal) :=
  match dget d "value" with
  | some v => .ok (some v)
  | Option.none =>
    match dget d "content" with
    | some v => .ok (some v)
    | Option.none =>
      match dget d "text" with
      | some (.str s) => .ok (some (.str s))
      | _ => .ok Option.none

/-- Extraction for one list item: dict items follow the branch chain of
lines 259-269, string items are appended unchanged (line 270-271), and any
other item is skipped. -/
def extractPart (item : PyVal) : Except String (Option PyVal) :=
  match item with
  | .dict d =>
    match dget d "text" with
    | some (.dict td) =>
      match dget td "value" with
      | some v =>
        if sliceOk v then .ok (some v)
        else .error "TypeError: unsupported slice"
      | Option.none => extractPartElse d
    | _ => extractPartElse d
  | .str s => .ok (some (.str s))
  | _ => .ok Option.none

/-- The `cleaned_parts` accumulation loop of lines 256-271: process every
item in order, propagating the first exception. -/
def gatherParts : List PyVal → Except String (List PyVal)
  | [] => .ok []
  | item :: rest =>
    match extractPart item with
    | .error e => .error e
    | .ok o =>
      match gatherParts rest with
      | .error e => .error e
      | .ok ps =>
        match o with
        | some v => .ok (v :: ps)
        | Option.none => .ok ps

/-- Python `'\n\n'.join` argument check: every element must be a string,
otherwise `TypeError` is raised. -/
def strsOf : List PyVal → Except String (List String)
  | [] => .ok []
  | .str s :: rest =>
    match strsOf rest with
    | .error e => .error e
    | .ok ss => .ok (s :: ss)
  | _ :: _ => .error "TypeError: sequence item is not str"

/-- The list branch of `clean_content` (lines 254-275): join the extracted
fragments with a blank line, or fall back to `str` of the whole list when
nothing was extracted. -/
def cleanList (items : List PyVal) : Except String PyVal :=
  match gatherParts items with
  | .error e => .error e
  | .ok parts =>
    if parts.isEmpty then .ok (.str (pyStr (.list items)))
    else
      match strsOf parts with
      | .error e => .error e
      | .ok ss => .ok (.str (String.intercalate "\n\n" ss))

/-- The dict branch of `clean_content` (lines 276-290): note that the flat
`value` key is consulted before the nested `text.value`, and that a `text`
key that is neither a dict carrying `value` nor a string falls through to
the raw `str` rendering without consulting `content` or `message`. -/
def cleanDict (d : List (String × PyVal)) (whole : PyVal) : PyVal :=
  match dget d "value" with
  | some v => v
  | Option.none =>
    match dget d "text" with
    | some t =>
      match t with
      | .dict td =>
        match dget td "value" with
        | some v => v
        | Option.none => .str (pyStr whole)
      | .str s => .str s
      | _ => .str (pyStr whole)
    | Option.none =>
      match dget d "content" with
      | some v => v
      | Option.none =>
        match dget d "message" with
        | some v => v
        | Option.none => .str (pyStr whole)

/-- Dispatch of lines 252-294 after the optional string-to-list decoding:
strings are returned unchanged, lists and dicts go to their branches, and
anything else is rendered with `str`. -/
def dispatch : PyVal → Except String PyVal
  | .str s => .ok (.str s)
  | .list items => cleanList items
  | .dict d => .ok (cleanDict d (.dict d))
  | v => .ok (.str (pyStr v))

/-- Python `s.startswith(p)`, computed on the character lists. -/
def strStartsWith (s p : String) : Bool :=
  p.data.isPrefixOf s.data

/-- Python `s.endswith(p)`, computed on the character lists. -/
def strEndsWith (s p : String) : Bool :=
  p.data.reverse.isPrefixOf s.data.reverse

/-- The content normalizer `clean_content` of `src/agentic_rag/app.py`
(lines 238-294).  A string that starts with `[` and ends with `]` is first
decoded with `ast.literal_eval`; on decode failure the string is returned
unchanged (the bare `except` of line 248). -/
def clean_content (content : PyVal) : Except String PyVal :=
  match content with
  | .str s =>
    if strStartsWith s "\x5b" && strEndsWith s "\x5d" then
      match literal_eval s with
      | some v => dispatch v
      | Option.none => .ok (.str s)
    else .ok (.str s)
  | v => dispatch v

/-- Handle of a remotely provisioned agent, as returned by
`project_client.agents.create_agent`: the remote service assigns a fresh
identifier to every created agent. -/
structure AgentHandle where
  id : Nat
  name : String

/-- State of the remote agent service visible to provisioning: the number
of `create_agent` calls performed so far in this process (fresh identifiers
are modelled as this count). -/
structure ProvisionState where
  created : Nat

/-- `create_research_agent` from `src/agentic_rag/agents/research_agent.py`
(lines 22-107): every call performs a remote `create_agent` provisioning
call and returns the newly created agent; no handle is cached anywhere. -/
def create_research_agent (s : ProvisionState) : AgentHandle × ProvisionState :=
  ({ id := s.created, name := "healthcare_research_agent" }, { created := s.created + 1 })

/-- Iterate `create_research_agent` n times from a given service state. -/
def provisionN : Nat → ProvisionState → ProvisionState
  | 0, s => s
  | n + 1, s => provisionN n (create_research_agent s).2

/-- The identifier of the handle returned by the (k+1)-st call to
`create_research_agent` in a fresh process. -/
def nthHandleId (k : Nat) : Nat :=
  (create_research_agent (provisionN k { created := 0 })).1.id

/-- Outcome of one stage's interaction with the remote service inside
`execute_multi_agent_workflow`:
* `raisesBeforeThread e`: an exception is raised before the stage's thread
  is created (e.g. agent provisioning fails, line 155/238/312);
* `raisesAfterThread e`: an exception is raised after the thread is created
  and before it is deleted (e.g. the run reaches `failed` inside the poll
  loop and line 194/273/350 raises, or message extraction fails);
* `completesRun status content`: `create_and_process` plus the poll loop
  end with a terminal run status (any status outside `queued`,
  `in_progress`, `requires_action`) and the message-content extraction
  loop (lines 200-211) yields `content`. -/
inductive StageEnv where
  | raisesBeforeThread : String → StageEnv
  | raisesAfterThread : String → StageEnv
  | completesRun : String → String → StageEnv

/-- One stage's entry in the `workflow_results` dict: the except-branch
stores `{"status": "failed", "error": str(e)}` (no content, no agent id),
the normal branch stores `{"status": run.status, "content": ...,
"agent_id": ...}` (no error). -/
structure StageResult where
  status : String
  content : Option String
  error : Option String
  agent_id : Option String

/-- Conversation threads opened and deleted by one stage. -/
structure ThreadTrace where
  opened : Nat
  deleted : Nat

/-- Execute one stage of `execute_multi_agent_workflow` (the three
try/except blocks at lines 152-229, 235-303 and 309-385).  `emptyFallback`
is the placeholder substituted for empty extracted content (lines 212-213
and 368-369); the analysis stage passes `Option.none` because it has no such
fallback.  `threads.delete` is executed only at the end of the try block
(lines 225, 299, 381), so a stage that raises after opening its thread
never deletes it. -/
def runStage (env : StageEnv) (emptyFallback : Option String) (agentName : String) :
    StageResult × ThreadTrace :=
  match env with
  | .raisesBeforeThread e =>
    ({ status := "failed", content := Option.none, error := some e,
       agent_id := Option.none }, { opened := 0, deleted := 0 })
  | .raisesAfterThread e =>
    ({ status := "failed", content := Option.none, error := some e,
       agent_id := Option.none }, { opened := 1, deleted := 0 })
  | .completesRun s c =>
    let c' := match emptyFallback with
      | some fb => if c = "" then fb else c
      | Option.none => c
    ({ status := s, content := some c', error := Option.none,
       agent_id := some agentName }, { opened := 1, deleted := 1 })

/-- `workflow_results.get(key, {}).get('content', default)` as used when
building the derived prompts (lines 248, 322, 325). -/
def contentOr (r : StageResult) (default : String) : String :=
  match r.content with
  | some c => c
  | Option.none => default

/-- Fixed segments of the analysis prompt f-string (lines 245-250). -/
def aqHead : String :=
  "Based on the following research findings about \x27"

/-- Segment between the query and the research content in the analysis prompt. -/
def aqMid : String :=
  "\x27, please perform data analysis and create insights:\n\nRESEARCH FINDINGS:\n"

/-- Trailing segment of the analysis prompt. -/
def aqTail : String :=
  "\n\nPlease analyze this healthcare information, identify key patterns, statistics, and create any relevant visualizations or comparisons."

/-- The analysis prompt constructed at lines 245-250. -/
def analysis_query (user_query researchContent : String) : String :=
  aqHead ++ user_query ++ aqMid ++ researchContent ++ aqTail

/-- Fixed segments of the synthesis prompt f-string (lines 319-327). -/
def sqHead : String :=
  "Please synthesize the following research findings and analysis insights into a comprehensive, patient-friendly healthcare response about \x27"

/-- Segment between the query and the research content in the synthesis prompt. -/
def sqMid1 : String :=
  "\x27:\n\nRESEARCH FINDINGS:\n"

/-- Segment between the research content and the analysis content. -/
def sqMid2 : String :=
  "\n\nANALYSIS INSIGHTS:\n"

/-- Trailing segment of the synthesis prompt. -/
def sqTail : String :=
  "\n\nPlease create a comprehensive response that explains the topic in a patient-friendly way, incorporating both the research findings and analytical insights."

/-- The synthesis prompt constructed at lines 319-327; unlike the analysis
prompt it embeds the analysis stage's content as well. -/
def synthesis_query (user_query researchContent analysisContent : String) : String :=
  sqHead ++ user_query ++ sqMid1 ++ researchContent ++ sqMid2 ++ analysisContent ++ sqTail

/-- Remote behavior of the three stages for one workflow invocation. -/
structure WorkflowEnv where
  research : StageEnv
  analysis : StageEnv
  synthesis : StageEnv

/-- The `summary` entry built at lines 391-399. -/
structure Summary where
  query : String
  successful_agents : Nat
  total_agents : Nat
  workflow_status : String

/-- The dictionary returned by `execute_multi_agent_workflow`, together
with the prompts submitted to the stage-2/3 agents and the thread
accounting of each stage.  The keys `research`, `analysis`, `synthesis`
and `summary` are each assigned on every control path of the source, which
the record fields embed. -/
structure WorkflowResult where
  research : StageResult
  analysis : StageResult
  synthesis : StageResult
  summary : Summary
  analysisPrompt : String
  synthesisPrompt : String
  researchTrace : ThreadTrace
  analysisTrace : ThreadTrace
  synthesisTrace : ThreadTrace

/-- `execute_multi_agent_workflow` from
`src/agentic_rag/agents/coordinator_agent.py` (lines 117-405): run the
research stage, then unconditionally the analysis stage (its prompt embeds
the research content, defaulting to `No research data available`), then
unconditionally the synthesis stage (its prompt embeds both the research
and the analysis content), then build the summary: `successful_agents`
counts stage entries whose status is `completed`, `total_agents` is the
number of stage entries (3), and `workflow_status` is `completed` when all
are successful and `partial` otherwise. -/
def execute_multi_agent_workflow (user_query : String) (env : WorkflowEnv) :
    WorkflowResult :=
  let rpair := runStage env.research (some "No research results") "healthcare_research_agent"
  let aq := analysis_query user_query (contentOr rpair.1 "No research data available")
  let apair := runStage env.analysis Option.none "healthcare_analysis_agent"
  let sq := synthesis_query user_query (contentOr rpair.1 "No research data available")
      (contentOr apair.1 "No analysis data available")
  let spair := runStage env.synthesis (some "No synthesis results") "healthcare_synthesis_agent"
  let succ := (if rpair.1.status == "completed" then 1 else 0) +
      (if apair.1.status == "completed" then 1 else 0) +
      (if spair.1.status == "completed" then 1 else 0)
  { research := rpair.1, analysis := apair.1, synthesis := spair.1,
    summary := { query := user_query, successful_agents := succ, total_agents := 3,
                 workflow_status := if succ == 3 then "completed" else "partial" },
    analysisPrompt := aq, synthesisPrompt := sq,
    researchTrace := rpair.2, analysisTrace := apair.2, synthesisTrace := spair.2 }

/-- Environment in which the research stage raises during provisioning and
the other two stages complete normally. -/
def envResearchDown : WorkflowEnv :=
  { research := .raisesBeforeThread "index unavailable",
    analysis := .completesRun "completed" "analysis text",
    synthesis := .completesRun "completed" "synthesis text" }

/-- Whether an `Except` result is a normal return (no exception raised). -/
def exceptOk : Except String PyVal → Bool
  | .ok _ => true
  | .error _ => false

/-- A list item is harmless for `clean_content`: its extraction neither
raises nor yields a non-string fragment. -/
def partOkStr (item : PyVal) : Bool :=
  match extractPart item with
  | .ok Option.none => true
  | .ok (some (.str _)) => true
  | _ => false

/-- Every item of the list is harmless. -/
def listSafe (l : List PyVal) : Bool :=
  l.all partOkStr

/-- Inputs certified not to reach a raising branch of `clean_content`:
non-string values raise only through the list branch, and a string is
certified only when it does not enter the decoding path at all (fails the
bracket guard) or when the modelled decode succeeds with a harmless list.
A guard-passing string the model cannot decode is deliberately NOT
certified, because the real `ast.literal_eval` may decode literals outside
the modelled subset (e.g. non-canonical floats) into a list that raises. -/
def cleanSafe (x : PyVal) : Bool :=
  match x with
  | .list l => listSafe l
  | .str s =>
    if strStartsWith s "\x5b" && strEndsWith s "\x5d" then
      match literal_eval s with
      | some (.list l) => listSafe l
      | _ => false
    else true
  | _ => true

/-- Whether a stage's remote interaction raised an exception (as opposed to
ending with a terminal run status on the normal path). -/
def stageRaised : StageEnv → Bool
  | .completesRun _ _ => false
  | _ => true

/-- Whether a stage raised after opening its conversation thread. -/
def raisedAfterOpen : StageEnv → Bool
  | .raisesAfterThread _ => true
  | _ => false

/-- Environment in which the research run ends with terminal status
`failed` on the normal (non-raising) path. -/
def envRunFailedStatus : WorkflowEnv :=
  { research := .completesRun "failed" "remote failure detail",
    analysis := .completesRun "completed" "analysis text",
    synthesis := .completesRun "completed" "synthesis text" }

/-- Environment in which the research stage raises after its thread was
created (for instance the run reaches `failed` inside the poll loop and
line 194 raises). -/
def envRunRaises : WorkflowEnv :=
  { research := .raisesAfterThread "Research Agent failed: rate limited",
    analysis := .completesRun "completed" "analysis text",
    synthesis := .completesRun "completed" "synthesis text" }

/-- Environment in which all three stages complete; used to exhibit the
actual prompt shapes. -/
def envAllComplete : WorkflowEnv :=
  { research := .completesRun "completed" "t0",
    analysis := .completesRun "completed" "a1",
    synthesis := .completesRun "completed" "s1" }

/-- Same as `envAllComplete` except for the analysis content; used to show
the synthesis prompt depends on the analysis result. -/
def envAllCompleteAlt : WorkflowEnv :=
  { research := .completesRun "completed" "t0",
    analysis := .completesRun "completed" "a2",
    synthesis := .completesRun "completed" "s1" }

/-- Environment in which the analysis run completes with empty extracted
content. -/
def envEmptyAnalysis : WorkflowEnv :=
  { research := .completesRun "completed" "t0",
    analysis := .completesRun "completed" "",
    synthesis := .completesRun "completed" "s1" }

theorem gatherParts_strs (l : List PyVal) (h : listSafe l = true) :
    ∃ ss : List String, gatherParts l = .ok (List.map PyVal.str ss) := by
  induction l with
  | nil => exact ⟨[], rfl⟩
  | cons a rest ih =>
    rw [listSafe, List.all_cons, Bool.and_eq_true] at h
    obtain ⟨ha, hrest⟩ := h
    obtain ⟨ss, hss⟩ := ih hrest
    rw [partOkStr] at ha
    cases he : extractPart a with
    | error e => rw [he] at ha; simp at ha
    | ok o =>
      rw [he] at ha
      cases o with
      | none => exact ⟨ss, by simp [gatherParts, he, hss]⟩
      | some v =>
        cases v with
        | str s => exact ⟨s :: ss, by simp [gatherParts, he, hss]⟩
        | none => simp at ha
        | bool b => simp at ha
        | int n => simp at ha
        | float t => simp at ha
        | list l2 => simp at ha
        | tuple l2 => simp at ha
        | dict d2 => simp at ha

theorem strsOf_map (ss : List String) :
    strsOf (List.map PyVal.str ss) = .ok ss := by
  induction ss with
  | nil => rfl
  | cons s rest ih => simp [strsOf, ih]

theorem cleanList_ok (l : List PyVal) (h : listSafe l = true) :
    exceptOk (cleanList l) = true := by
  obtain ⟨ss, hss⟩ := gatherParts_strs l h
  simp only [cleanList, hss]
  split
  · rfl
  · rw [strsOf_map]; rfl

/-- C3 counterexample: the claim says the normalizer never raises, in
particular on lists whose parts carry non-string field values; but on the
list `[{'value': 1}]` the source extracts the integer 1 and then
`'\n\n'.join` raises `TypeError`, so `clean_content` is not total. -/
theorem spec_c3_counterexample :
    clean_content (.list [.dict [("value", .int 1)]])
      = .error "TypeError: sequence item is not str" := by
  rfl

/-- C3 (amended): the normalizer never raises on: any non-string input
whose list parts extract either nothing or a string field value (this
covers None, the empty list, and nested lists of textual parts); any
string that does not pass the bracket guard (malformed encodings such as
`"[broken"` are returned as plain text); and any guard-passing string
whose decode succeeds, in the sound literal model, with such a harmless
list.  It does raise TypeError when a (direct or decoded) list part
carries a non-string field value — e.g. an integer or float `value` — and
a mapping input returns its extracted field value as-is, which need not be
a string.  Guard-passing strings outside the modelled decoder's domain are
deliberately left uncertified rather than certified against an unfaithful
decode. -/
theorem spec_c3_amended (x : PyVal) (h : cleanSafe x = true) :
    exceptOk (clean_content x) = true := by
  cases x with
  | str s =>
    simp only [cleanSafe] at h
    simp only [clean_content]
    split
    next hg =>
      rw [if_pos hg] at h
      cases hp : literal_eval s with
      | none => rw [hp] at h; simp at h
      | some v =>
        rw [hp] at h
        simp only [hp]
        cases v with
        | list l => exact cleanList_ok l h
        | none => simp at h
        | bool b => simp at h
        | int n => simp at h
        | float t => simp at h
        | str s2 => simp at h
        | tuple l2 => simp at h
        | dict d => simp at h
    next hg => rfl
  | list l =>
    have hl : listSafe l = true := h
    exact cleanList_ok l hl
  | none => rfl
  | bool b => rfl
  | int n => rfl
  | float t => rfl
  | tuple l => rfl
  | dict d => rfl

/-- Witness for C3 (amended) at a concrete nested list input. -/
theorem spec_c3_amended_witness :
    exceptOk (clean_content
      (.list [.dict [("text", .dict [("value", .str "hi")])], .str "raw"])) = true :=
  spec_c3_amended (.list [.dict [("text", .dict [("value", .str "hi")])], .str "raw"]) rfl

/-- C7 counterexample: the claim says a mapping containing both a nested
`text.value` field and a flat `value` field yields the nested `text.value`;
the source's dict branch (app.py lines 279-290) checks the flat `value` key
first, so the flat value is returned instead. -/
theorem spec_c7_counterexample :
    clean_content (.dict [("text", .dict [("value", .str "nested")]), ("value", .str "flat")])
      = .ok (.str "flat")
    ∧ ("flat" : String) ≠ "nested" := by
  exact ⟨rfl, by decide⟩

/-- C7 (amended): a mapping input is extracted with the flat `value` field
first; the nested `text.value` field is consulted only when no flat `value`
key is present (followed by a textual `text`, then `content`, then
`message`).  In particular, for a mapping containing both a nested
`text.value` field and a flat `value` field, the flat `value` is returned. -/
theorem spec_c7_amended (d td : List (String × PyVal)) (v w : PyVal) :
    (dget d "value" = some v → clean_content (.dict d) = .ok v)
    ∧ (dget d "value" = Option.none → dget d "text" = some (.dict td) →
        dget td "value" = some w → clean_content (.dict d) = .ok w) := by
  constructor
  · intro hv
    simp [clean_content, dispatch, cleanDict, hv]
  · intro hv ht hw
    simp [clean_content, dispatch, cleanDict, hv, ht, hw]

/-- Witness for C7 (amended): both preference branches at concrete dicts. -/
theorem spec_c7_amended_witness :
    clean_content (.dict [("value", .str "flat2")]) = .ok (.str "flat2")
    ∧ clean_content (.dict [("text", .dict [("value", .str "nested2")])])
        = .ok (.str "nested2") :=
  ⟨(spec_c7_amended [("value", .str "flat2")] [] (.str "flat2") (.str "flat2")).1 rfl,
   (spec_c7_amended [("text", .dict [("value", .str "nested2")])]
      [("value", .str "nested2")] (.str "nested2") (.str "nested2")).2 rfl rfl rfl⟩

theorem summaryStatusNotCompleted (r a s : String) (h : r ≠ "completed") :
    (if (((if r == "completed" then 1 else 0) + (if a == "completed" then 1 else 0) +
        (if s == "completed" then 1 else 0) : Nat) == 3) then "completed" else "partial")
      = "partial" := by
  have h1 : (r == "completed") = false := beq_eq_false_iff_ne.mpr h
  rw [h1]
  have h2 : (if a == "completed" then (1 : Nat) else 0) ≤ 1 := by split <;> omega
  have h3 : (if s == "completed" then (1 : Nat) else 0) ≤ 1 := by split <;> omega
  have hc : (((if false then (1 : Nat) else 0) + (if a == "completed" then 1 else 0) +
      (if s == "completed" then 1 else 0) : Nat) == 3) = false := by
    rw [beq_eq_false_iff_ne]
    simp only [if_neg Bool.false_ne_true, Bool.false_eq_true, if_false]
    omega
  rw [hc]
  rfl

theorem summarySpec (r a s : String) :
    ((if (((if r == "completed" then 1 else 0) + (if a == "completed" then 1 else 0) +
        (if s == "completed" then 1 else 0) : Nat) == 3) then "completed" else "partial")
      = "completed"
      ↔ (r = "completed" ∧ a = "completed" ∧ s = "completed"))
    ∧ ((if (((if r == "completed" then 1 else 0) + (if a == "completed" then 1 else 0) +
        (if s == "completed" then 1 else 0) : Nat) == 3) then "completed" else "partial")
      = "completed"
      ∨ (if (((if r == "completed" then 1 else 0) + (if a == "completed" then 1 else 0) +
        (if s == "completed" then 1 else 0) : Nat) == 3) then "completed" else "partial")
      = "partial") := by
  by_cases hr : r = "completed" <;> by_cases ha : a = "completed" <;>
    by_cases hs : s = "completed" <;> simp [hr, ha, hs]

/-- C1 counterexample: in an execution where stage 1 (research) fails with
`index unavailable` and the remote analysis and synthesis runs complete,
stages 2 and 3 are executed and marked `completed` (not `skipped`) and the
overall status is `partial` (not `failed`): the workflow does not
short-circuit. -/
theorem spec_c1_counterexample :
    (execute_multi_agent_workflow "q" envResearchDown).research.status = "failed"
    ∧ (execute_multi_agent_workflow "q" envResearchDown).analysis.status = "completed"
    ∧ (execute_multi_agent_workflow "q" envResearchDown).synthesis.status = "completed"
    ∧ (execute_multi_agent_workflow "q" envResearchDown).summary.workflow_status = "partial"
    ∧ ("completed" : String) ≠ "skipped"
    ∧ ("partial" : String) ≠ "failed" := by
  exact ⟨rfl, rfl, rfl, rfl, by decide, by decide⟩

/-- C1 (amended): when stage 1 fails the workflow does not short-circuit:
stages 2 and 3 still execute exactly as their remote environments dictate,
and the summary's overall status is `partial` (the value `failed` is never
produced). -/
theorem spec_c1_amended (q : String) (env : WorkflowEnv)
    (h : (execute_multi_agent_workflow q env).research.status = "failed") :
    (execute_multi_agent_workflow q env).summary.workflow_status = "partial"
    ∧ (execute_multi_agent_workflow q env).analysis =
        (runStage env.analysis Option.none "healthcare_analysis_agent").1
    ∧ (execute_multi_agent_workflow q env).synthesis =
        (runStage env.synthesis (some "No synthesis results") "healthcare_synthesis_agent").1 := by
  refine ⟨?_, rfl, rfl⟩
  have hr : (runStage env.research (some "No research results")
      "healthcare_research_agent").1.status = "failed" := h
  have hne : (runStage env.research (some "No research results")
      "healthcare_research_agent").1.status ≠ "completed" := by
    rw [hr]; decide
  exact summaryStatusNotCompleted _ _ _ hne

/-- Witness for C1 (amended) at the concrete failing environment. -/
theorem spec_c1_amended_witness :
    (execute_multi_agent_workflow "q" envResearchDown).summary.workflow_status = "partial"
    ∧ (execute_multi_agent_workflow "q" envResearchDown).analysis =
        (runStage envResearchDown.analysis Option.none "healthcare_analysis_agent").1
    ∧ (execute_multi_agent_workflow "q" envResearchDown).synthesis =
        (runStage envResearchDown.synthesis (some "No synthesis results")
          "healthcare_synthesis_agent").1 :=
  spec_c1_amended "q" envResearchDown rfl

/-- C2 counterexample: with the mandatory first stage failed the summary
reports `partial`, not `failed` as the claim requires. -/
theorem spec_c2_counterexample :
    (execute_multi_agent_workflow "q" envResearchDown).research.status = "failed"
    ∧ (execute_multi_agent_workflow "q" envResearchDown).summary.workflow_status = "partial"
    ∧ ("partial" : String) ≠ "failed" := by
  exact ⟨rfl, rfl, by decide⟩

/-- C2 (amended): the summary's overall status is `completed` iff all three
stage results have status `completed`, and in every other case — including
a failed mandatory first stage — it is `partial`; the value `failed` is
never produced. -/
theorem spec_c2_amended (q : String) (env : WorkflowEnv) :
    ((execute_multi_agent_workflow q env).summary.workflow_status = "completed"
      ↔ ((execute_multi_agent_workflow q env).research.status = "completed"
        ∧ (execute_multi_agent_workflow q env).analysis.status = "completed"
        ∧ (execute_multi_agent_workflow q env).synthesis.status = "completed"))
    ∧ ((execute_multi_agent_workflow q env).summary.workflow_status = "completed"
      ∨ (execute_multi_agent_workflow q env).summary.workflow_status = "partial") :=
  summarySpec
    (runStage env.research (some "No research results") "healthcare_research_agent").1.status
    (runStage env.analysis Option.none "healthcare_analysis_agent").1.status
    (runStage env.synthesis (some "No synthesis results") "healthcare_synthesis_agent").1.status

/-- Witness for C2 (amended) at a concrete environment. -/
theorem spec_c2_amended_witness :
    (execute_multi_agent_workflow "q" envResearchDown).summary.workflow_status = "completed"
    ∨ (execute_multi_agent_workflow "q" envResearchDown).summary.workflow_status = "partial" :=
  (spec_c2_amended "q" envResearchDown).2

/-- C4 counterexample: when the research run ends with the terminal status
`failed` without raising (the poll loop at lines 188-194 is skipped because
`create_and_process` already returned a terminal run), the stored stage
entry has status `failed` but carries no error reason, contradicting the
claim that a failed stage entry always has one. -/
theorem spec_c4_counterexample :
    (execute_multi_agent_workflow "q" envRunFailedStatus).research.status = "failed"
    ∧ (execute_multi_agent_workflow "q" envRunFailedStatus).research.error = Option.none := by
  exact ⟨rfl, rfl⟩

/-- C4 (amended): the caller always receives a complete WorkflowResult —
the summary counts all three stages, both stage-2 sub-results are present
and equal to what their own remote environments dictate (independent of
stage 1 and of each other), and no exception propagates; however a stage's
recorded status is the raw terminal run status (not necessarily `completed`
or `failed`), and an error reason is present exactly when the stage raised
an exception. -/
theorem spec_c4_amended (q : String) (env : WorkflowEnv) :
    (execute_multi_agent_workflow q env).analysis =
        (runStage env.analysis Option.none "healthcare_analysis_agent").1
    ∧ (execute_multi_agent_workflow q env).synthesis =
        (runStage env.synthesis (some "No synthesis results") "healthcare_synthesis_agent").1
    ∧ (execute_multi_agent_workflow q env).summary.total_agents = 3
    ∧ (execute_multi_agent_workflow q env).research.error.isSome = stageRaised env.research
    ∧ (execute_multi_agent_workflow q env).analysis.error.isSome = stageRaised env.analysis
    ∧ (execute_multi_agent_workflow q env).synthesis.error.isSome = stageRaised env.synthesis := by
  obtain ⟨er, ea, es⟩ := env
  refine ⟨rfl, rfl, rfl, ?_, ?_, ?_⟩
  · cases er <;> rfl
  · cases ea <;> rfl
  · cases es <;> rfl

/-- Witness for C4 (amended) at a concrete environment. -/
theorem spec_c4_amended_witness :
    (execute_multi_agent_workflow "q" envRunFailedStatus).research.error.isSome
      = stageRaised envRunFailedStatus.research :=
  (spec_c4_amended "q" envRunFailedStatus).2.2.2.1

/-- C5 counterexample: two successive calls to `create_research_agent`
return handles with different identities and leave the remote service with
two provisioned agents, so resolution is neither cached nor idempotent. -/
theorem spec_c5_counterexample :
    nthHandleId 0 ≠ nthHandleId 1
    ∧ (provisionN 2 { created := 0 }).created = 2
    ∧ (2 : Nat) ≠ 1 := by
  exact ⟨by decide, rfl, by decide⟩

theorem provisionN_created (n : Nat) (s : ProvisionState) :
    (provisionN n s).created = s.created + n := by
  induction n generalizing s with
  | zero => simp [provisionN]
  | succ k ih =>
    rw [provisionN, ih]
    simp [create_research_agent]
    omega

theorem nthHandleId_eq (k : Nat) : nthHandleId k = k := by
  rw [nthHandleId, create_research_agent]
  simp [provisionN_created]

/-- C5 (amended): there is no caching: every call to
`create_research_agent` performs a fresh remote provisioning, so after N
calls the remote service holds N provisioned agents, and distinct calls
return handles with distinct identities. -/
theorem spec_c5_amended (i j : Nat) (h : i ≠ j) :
    nthHandleId i ≠ nthHandleId j
    ∧ (provisionN i { created := 0 }).created = i := by
  constructor
  · rw [nthHandleId_eq, nthHandleId_eq]
    exact h
  · rw [provisionN_created]
    simp

/-- Witness for C5 (amended) at the first two calls. -/
theorem spec_c5_amended_witness :
    nthHandleId 0 ≠ nthHandleId 1
    ∧ (provisionN 0 { created := 0 }).created = 0 :=
  spec_c5_amended 0 1 (by decide)

/-- C6 counterexample: when the research stage raises after creating its
thread, the except-branch (lines 227-229) stores the failure but never
reaches `threads.delete` (line 225), so the opened conversation context is
not closed. -/
theorem spec_c6_counterexample :
    (execute_multi_agent_workflow "q" envRunRaises).researchTrace.opened = 1
    ∧ (execute_multi_agent_workflow "q" envRunRaises).researchTrace.deleted = 0
    ∧ (0 : Nat) ≠ 1 := by
  exact ⟨rfl, rfl, by decide⟩

theorem runStage_trace (e : StageEnv) (fb : Option String) (n : String) :
    (runStage e fb n).2.deleted ≤ (runStage e fb n).2.opened
    ∧ (raisedAfterOpen e = false →
        (runStage e fb n).2.deleted = (runStage e fb n).2.opened)
    ∧ (raisedAfterOpen e = true →
        (runStage e fb n).2.deleted < (runStage e fb n).2.opened) := by
  cases e <;> simp [runStage, raisedAfterOpen]

/-- C6 (amended): a stage's conversation thread is opened and closed
exactly once only on the run-to-completion path; on the path where the
stage raises after opening its thread, the thread is opened but never
deleted (a leak), and when the stage raises before opening, no thread
exists.  Equivalently: deletions never exceed opens, they are equal exactly
when the stage did not raise after opening, and strictly fewer otherwise. -/
theorem spec_c6_amended (q : String) (env : WorkflowEnv) :
    ((execute_multi_agent_workflow q env).researchTrace.deleted ≤
        (execute_multi_agent_workflow q env).researchTrace.opened
      ∧ (raisedAfterOpen env.research = false →
          (execute_multi_agent_workflow q env).researchTrace.deleted =
            (execute_multi_agent_workflow q env).researchTrace.opened)
      ∧ (raisedAfterOpen env.research = true →
          (execute_multi_agent_workflow q env).researchTrace.deleted <
            (execute_multi_agent_workflow q env).researchTrace.opened))
    ∧ ((execute_multi_agent_workflow q env).analysisTrace.deleted ≤
        (execute_multi_agent_workflow q env).analysisTrace.opened
      ∧ (raisedAfterOpen env.analysis = false →
          (execute_multi_agent_workflow q env).analysisTrace.deleted =
            (execute_multi_agent_workflow q env).analysisTrace.opened)
      ∧ (raisedAfterOpen env.analysis = true →
          (execute_multi_agent_workflow q env).analysisTrace.deleted <
            (execute_multi_agent_workflow q env).analysisTrace.opened))
    ∧ ((execute_multi_agent_workflow q env).synthesisTrace.deleted ≤
        (execute_multi_agent_workflow q env).synthesisTrace.opened
      ∧ (raisedAfterOpen env.synthesis = false →
          (execute_multi_agent_workflow q env).synthesisTrace.deleted =
            (execute_multi_agent_workflow q env).synthesisTrace.opened)
      ∧ (raisedAfterOpen env.synthesis = true →
          (execute_multi_agent_workflow q env).synthesisTrace.deleted <
            (execute_multi_agent_workflow q env).synthesisTrace.opened)) :=
  ⟨runStage_trace env.research (some "No research results") "healthcare_research_agent",
   runStage_trace env.analysis Option.none "healthcare_analysis_agent",
   runStage_trace env.synthesis (some "No synthesis results") "healthcare_synthesis_agent"⟩

/-- Witness for C6 (amended): the leak at the concrete raising environment. -/
theorem spec_c6_amended_witness :
    (execute_multi_agent_workflow "q" envRunRaises).researchTrace.deleted <
      (execute_multi_agent_workflow "q" envRunRaises).researchTrace.opened :=
  (spec_c6_amended "q" envRunRaises).1.2.2 rfl

theorem strData_append (a b : String) : (a ++ b).data = a.data ++ b.data := by
  rfl

set_option maxRecDepth 8192 in
/-- C8 counterexample: with stage 1 succeeding with retrieval text `t0`,
the analysis prompt is not `"Analyze this: t0"` and the synthesis prompt is
not `"Synthesize a reader-friendly answer from: t0"`; moreover changing
only the analysis result changes the synthesis prompt, so the synthesis
prompt is not derived from the stage-1 output alone. -/
theorem spec_c8_counterexample :
    (execute_multi_agent_workflow "q" envAllComplete).analysisPrompt
      ≠ "Analyze this: t0"
    ∧ (execute_multi_agent_workflow "q" envAllComplete).synthesisPrompt
      ≠ "Synthesize a reader-friendly answer from: t0"
    ∧ (execute_multi_agent_workflow "q" envAllComplete).synthesisPrompt
      ≠ (execute_multi_agent_workflow "q" envAllCompleteAlt).synthesisPrompt := by
  exact ⟨by decide, by decide, by decide⟩

theorem infix_analysis_query (q t : String) :
    t.data <:+: (analysis_query q t).data :=
  ⟨(aqHead ++ q ++ aqMid).data, aqTail.data, by
    simp [analysis_query, strData_append, List.append_assoc]⟩

theorem infix_synthesis_query_rc (q t a : String) :
    t.data <:+: (synthesis_query q t a).data :=
  ⟨(sqHead ++ q ++ sqMid1).data, (sqMid2 ++ a ++ sqTail).data, by
    simp [synthesis_query, strData_append, List.append_assoc]⟩

/-- C8 (amended): when stage 1 succeeds with non-empty retrieval text `t`,
stage 2 constructs an analysis prompt of the fixed template
`Based on the following research findings about '<query>' ... RESEARCH
FINDINGS: <t> ...` and a synthesis prompt of the fixed template embedding
`t` and additionally the analysis stage's reported content; both prompts
contain `t`, but the synthesis prompt depends on the analysis result, not
on the stage-1 output alone. -/
theorem spec_c8_amended (q t : String) (env : WorkflowEnv)
    (hr : env.research = .completesRun "completed" t) (ht : t ≠ "") :
    (execute_multi_agent_workflow q env).analysisPrompt = analysis_query q t
    ∧ (execute_multi_agent_workflow q env).synthesisPrompt =
        synthesis_query q t
          (contentOr (execute_multi_agent_workflow q env).analysis "No analysis data available")
    ∧ t.data <:+: (execute_multi_agent_workflow q env).analysisPrompt.data
    ∧ t.data <:+: (execute_multi_agent_workflow q env).synthesisPrompt.data := by
  have hc : contentOr (runStage env.research (some "No research results")
      "healthcare_research_agent").1 "No research data available" = t := by
    rw [hr]
    simp [runStage, contentOr, ht]
  refine ⟨?_, ?_, ?_, ?_⟩
  · show analysis_query q (contentOr (runStage env.research (some "No research results")
        "healthcare_research_agent").1 "No research data available") = analysis_query q t
    rw [hc]
  · show synthesis_query q (contentOr (runStage env.research (some "No research results")
        "healthcare_research_agent").1 "No research data available") _ = _
    rw [hc]
    rfl
  · show t.data <:+: (analysis_query q (contentOr (runStage env.research
        (some "No research results") "healthcare_research_agent").1
        "No research data available")).data
    rw [hc]
    exact infix_analysis_query q t
  · show t.data <:+: (synthesis_query q (contentOr (runStage env.research
        (some "No research results") "healthcare_research_agent").1
        "No research data available") _).data
    rw [hc]
    exact infix_synthesis_query_rc q t _

/-- Witness for C8 (amended) at the concrete all-completing environment. -/
theorem spec_c8_amended_witness :
    (execute_multi_agent_workflow "q" envAllComplete).analysisPrompt
      = analysis_query "q" "t0"
    ∧ (execute_multi_agent_workflow "q" envAllComplete).synthesisPrompt =
        synthesis_query "q" "t0"
          (contentOr (execute_multi_agent_workflow "q" envAllComplete).analysis
            "No analysis data available")
    ∧ ("t0" : String).data <:+:
        (execute_multi_agent_workflow "q" envAllComplete).analysisPrompt.data
    ∧ ("t0" : String).data <:+:
        (execute_multi_agent_workflow "q" envAllComplete).synthesisPrompt.data :=
  spec_c8_amended "q" "t0" envAllComplete rfl (by decide)

theorem runStage_content_fallback (e : StageEnv) (fb n : String) (hfb : fb ≠ "") :
    (runStage e (some fb) n).1.content ≠ some "" := by
  cases e with
  | raisesBeforeThread msg => simp [runStage]
  | raisesAfterThread msg => simp [runStage]
  | completesRun st c =>
    simp only [runStage, Option.some.injEq, ne_eq]
    split
    · simp [hfb]
    · simp_all

/-- C10: a research or synthesis stage entry never carries empty content
(empty extractions are replaced by the placeholders `No research results` /
`No synthesis results`, lines 212-213 and 368-369), while the analysis
stage has no such fallback and a completed analysis run with empty
extraction reports empty content (lines 289-293). -/
theorem spec_c10 (q : String) (env : WorkflowEnv) (s : String) :
    (execute_multi_agent_workflow q env).research.content ≠ some ""
    ∧ (execute_multi_agent_workflow q env).synthesis.content ≠ some ""
    ∧ (env.research = .completesRun s "" →
        (execute_multi_agent_workflow q env).research.content = some "No research results")
    ∧ (env.synthesis = .completesRun s "" →
        (execute_multi_agent_workflow q env).synthesis.content = some "No synthesis results")
    ∧ (env.analysis = .completesRun s "" →
        (execute_multi_agent_workflow q env).analysis.status = s
        ∧ (execute_multi_agent_workflow q env).analysis.content = some "") := by
  refine ⟨?_, ?_, ?_, ?_, ?_⟩
  · exact runStage_content_fallback env.research "No research results"
      "healthcare_research_agent" (by decide)
  · exact runStage_content_fallback env.synthesis "No synthesis results"
      "healthcare_synthesis_agent" (by decide)
  · intro h
    show (runStage env.research (some "No research results")
        "healthcare_research_agent").1.content = some "No research results"
    rw [h]
    simp [runStage]
  · intro h
    show (runStage env.synthesis (some "No synthesis results")
        "healthcare_synthesis_agent").1.content = some "No synthesis results"
    rw [h]
    simp [runStage]
  · intro h
    constructor
    · show (runStage env.analysis Option.none "healthcare_analysis_agent").1.status = s
      rw [h]
      rfl
    · show (runStage env.analysis Option.none "healthcare_analysis_agent").1.content = some ""
      rw [h]
      rfl

/-- Witness for C10 at the concrete empty-analysis environment. -/
theorem spec_c10_witness :
    (execute_multi_agent_workflow "q" envEmptyAnalysis).analysis.status = "completed"
    ∧ (execute_multi_agent_workflow "q" envEmptyAnalysis).analysis.content = some "" :=
  (spec_c10 "q" envEmptyAnalysis "completed").2.2.2.2 rfl
